import Mathlib

/-!
Shallow embedding of the GEO_eval leave-one-out attribution engine
(`eval.py`).  External effects (the Exa content provider, the OpenAI
chat completion endpoint, the ragas scorer, the on-disk cache) are
modelled as explicit parameters; the in-place mutation that
`call_gpt4o` performs on its `messages` argument is modelled by
threading the message list through an explicit run state whose final
value is the list the caller observes after the call returns.
Python floats are embedded as exact rationals.
-/

set_option autoImplicit false

namespace GeoEval

/-- A resolved document, `Source` in `eval.py`. -/
structure Source where
  id : String
  title : String
  url : String
  text : String
deriving DecidableEq

/-- Entry of `sources_meta`: the dict built at the end of `run_loo`. -/
structure SMeta where
  id : String
  title : String
  url : String
deriving DecidableEq

/-- A raw provider/cache record: each of the four document fields may be
absent (Python dict `.get` with a default). -/
structure RawDoc where
  id : Option String
  title : Option String
  url : Option String
  text : Option String
deriving DecidableEq

/-- An entry of the `exa_mocks` mapping: a dict that may carry a
`results` list (a provider envelope) and/or the document fields
directly at top level. -/
structure MockVal where
  results : Option (List RawDoc)
  top : RawDoc
deriving DecidableEq

/-- A single result object returned by `exa.get_contents`; `title` and
`text` may be `None`. -/
structure ExaResult where
  id : String
  title : Option String
  url : String
  text : Option String
deriving DecidableEq

/-- `LOOResult` dataclass from `eval.py`. -/
structure LOOResult where
  full_answer : String
  full_quality : Rat
  metric_breakdown : List (String × Rat)
  per_source_impact : List Rat
  sources_meta : List SMeta
  per_source_metrics : List (List (String × Rat))
deriving DecidableEq

/-- Python `x or default` on an optional string: `None` and `""` are
both falsy (used by `fetch_exa_content` for `r.title or "(untitled)"`). -/
def pyOr (s : Option String) (d : String) : String :=
  match s with
  | none => d
  | some v => if v == "" then d else v

/-- Association-list lookup, modelling `u in d` / `d[u]` on a Python dict. -/
def alookup (c : List (String × RawDoc)) (u : String) : Option RawDoc :=
  (c.find? (fun p => p.1 == u)).map (fun p => p.2)

/-- Association-list update, modelling `d[u] = v` on a Python dict. -/
def ainsert (c : List (String × RawDoc)) (u : String) (v : RawDoc) :
    List (String × RawDoc) :=
  if (c.find? (fun p => p.1 == u)).isSome then
    c.map (fun p => if p.1 == u then (u, v) else p)
  else
    c ++ [(u, v)]

/-- `fetch_exa_content`: the provider call either raises (`none`), returns
an empty result list (a `RuntimeError` in the source, also `none` here),
or yields the first result, with `title or "(untitled)"` and
`text or ""` defaulting. -/
def fetch_exa_content (provider : String → Option (List ExaResult))
    (url : String) : Option Source :=
  match provider url with
  | none => none
  | some [] => none
  | some (r :: _) =>
      some ⟨r.id, pyOr r.title "(untitled)", r.url, pyOr r.text ""⟩

/-- Build a `Source` for URL `u` from a raw record, with the defaulting
used both for mock entries and for cache entries in `build_sources`:
`m.get("id", u)`, `m.get("title", "(untitled)")`, `m.get("url", u)`,
`m.get("text", "")`. -/
def sourceOfRaw (u : String) (m : RawDoc) : Source :=
  ⟨m.id.getD u, m.title.getD "(untitled)", m.url.getD u, m.text.getD ""⟩

/-- Unwrap a mock entry: `if "results" in m and m["results"]: m = m["results"][0]`. -/
def unwrapMock (m : MockVal) : RawDoc :=
  match m.results with
  | some (r :: _) => r
  | _ => m.top

/-- Lookup in the optional `exa_mocks` mapping:
`exa_mocks is not None and u in exa_mocks`. -/
def mockFor (exa_mocks : Option (List (String × MockVal))) (u : String) :
    Option MockVal :=
  match exa_mocks with
  | none => none
  | some ms => (ms.find? (fun p => p.1 == u)).map (fun p => p.2)

/-- The cache record written back after a successful fetch:
`{"id": src.id, "title": src.title, "url": src.url, "text": src.text}`. -/
def rawOfSource (s : Source) : RawDoc :=
  ⟨some s.id, some s.title, some s.url, some s.text⟩

/-- One iteration of the `build_sources` loop for URL `u`: returns the
resolved document (if any), the cache after the iteration, and whether
this iteration fetched (and hence set `updated`). -/
def resolve_one (provider : String → Option (List ExaResult))
    (exa_mocks : Option (List (String × MockVal)))
    (cache : List (String × RawDoc)) (u : String) :
    Option Source × List (String × RawDoc) × Bool :=
  match mockFor exa_mocks u with
  | some m => (some (sourceOfRaw u (unwrapMock m)), cache, false)
  | none =>
    match alookup cache u with
    | some entry => (some (sourceOfRaw u entry), cache, false)
    | none =>
      match fetch_exa_content provider u with
      | some src => (some src, ainsert cache u (rawOfSource src), true)
      | none => (none, cache, false)

/-- The `build_sources` loop over the URL list, threading the cache and
the `updated` flag. -/
def build_sources_go (provider : String → Option (List ExaResult))
    (exa_mocks : Option (List (String × MockVal))) :
    List String → List (String × RawDoc) → Bool →
    List Source × List (String × RawDoc) × Bool
  | [], cache, upd => ([], cache, upd)
  | u :: rest, cache, upd =>
    match resolve_one provider exa_mocks cache u with
    | (some s, c, u2) =>
        let r := build_sources_go provider exa_mocks rest c (upd || u2)
        (s :: r.1, r.2)
    | (none, c, u2) => build_sources_go provider exa_mocks rest c (upd || u2)

/-- `build_sources(urls, exa_mocks)` with the loaded cache and the external
provider passed explicitly; the returned cache and flag model the final
`save_cache` condition. -/
def build_sources (provider : String → Option (List ExaResult))
    (cache0 : List (String × RawDoc)) (urls : List String)
    (exa_mocks : Option (List (String × MockVal))) :
    List Source × List (String × RawDoc) × Bool :=
  build_sources_go provider exa_mocks urls cache0 false

/-- A chat message: `{"role": ..., "content": ...}`. -/
structure Message where
  role : String
  content : String
deriving DecidableEq

/-- The system message of `build_prompt`. -/
def sys_msg : String :=
  "You are a factual answer generator.\n" ++
  "Use ONLY the provided documents.\n" ++
  "Every factual statement must cite a source like [S#].\n" ++
  "Do not add outside knowledge."

/-- The per-document evidence block: `f"[S{i}] {s.title} ‚Äì {s.url}\n{s.text}"`
with `i` the 1-based position. -/
def numberedSource (i : Nat) (s : Source) : String :=
  "[S" ++ toString i ++ "] " ++ s.title ++ " ‚Äì " ++ s.url ++ "\n" ++ s.text

/-- `build_prompt(query, sources)`: a deterministic two-message prompt. -/
def build_prompt (query : String) (sources : List Source) : List Message :=
  let numbered_sources :=
    (List.range sources.length).zip sources |>.map
      (fun p => numberedSource (p.1 + 1) p.2)
  let user_msg :=
    "Question: \"" ++ query ++ "\"\n\nSources:\n" ++
      String.intercalate "\n\n" numbered_sources
  [⟨"system", sys_msg⟩, ⟨"user", user_msg⟩]

/-- List-level infix test, used to model Python's `pat in s` on strings. -/
def seqContains (pat : List Char) : List Char → Bool
  | [] => pat.isPrefixOf []
  | c :: cs => pat.isPrefixOf (c :: cs) || seqContains pat cs

/-- Python `pat in s` for strings. -/
def strContains (s pat : String) : Bool :=
  seqContains pat.toList s.toList

/-- The oversized-request test of `call_gpt4o`:
`"Request too large" in err_str or "tokens per min" in err_str or "TPM" in err_str`. -/
def tooLargeMsg (err : String) : Bool :=
  strContains err "Request too large" || strContains err "tokens per min" ||
    strContains err "TPM"

/-- Outcome of one external chat-completion attempt, as classified by the
`except` clauses of `call_gpt4o`: success, a `RateLimitError` (whose
message string drives the truncation test), a broader `openai.APIError`,
or any other exception. -/
inductive Outcome where
  | success (text : String)
  | rateLimit (err : String)
  | apiError (err : String)
  | other
deriving DecidableEq

/-- Result of `call_gpt4o`: the returned text, the final `RuntimeError`
after exhausting retries, or an exception propagated by the bare `raise`. -/
inductive GenResult where
  | ok (text : String)
  | exhausted
  | fatal
deriving DecidableEq

/-- Mutable state of one `call_gpt4o` activation: the message list (shared
with the caller and mutated in place by truncation), the current backoff
delay, and the sleeps performed so far. -/
structure RunState where
  msgs : List Message
  delay : Nat
  sleeps : List Nat
deriving DecidableEq

/-- The truncation step: halve the content of every `"user"` message,
in place. -/
def truncateUser (msgs : List Message) : List Message :=
  msgs.map (fun m =>
    if m.role == "user" then ⟨m.role, m.content.take (m.content.length / 2)⟩
    else m)

/-- Whether a failed attempt sleeps and doubles the delay (a backoff
retry, as opposed to a truncation retry). -/
def isBackoff : Outcome → Bool
  | .rateLimit e => !(tooLargeMsg e)
  | .apiError _ => true
  | _ => false

/-- Effect of one failed attempt on the run state: truncation for an
oversized `RateLimitError`, otherwise sleep and double the delay;
successful or fatal outcomes leave the state unchanged. -/
def procFail (st : RunState) (o : Outcome) : RunState :=
  match o with
  | .rateLimit e =>
      if tooLargeMsg e then ⟨truncateUser st.msgs, st.delay, st.sleeps⟩
      else ⟨st.msgs, st.delay * 2, st.sleeps ++ [st.delay]⟩
  | .apiError _ => ⟨st.msgs, st.delay * 2, st.sleeps ++ [st.delay]⟩
  | _ => st

/-- The cumulative effect of a list of failed attempts. -/
def runFails (st : RunState) (l : List Outcome) : RunState :=
  l.foldl procFail st

/-- Number of backoff retries in a list of outcomes. -/
def countBackoff (l : List Outcome) : Nat :=
  (l.filter isBackoff).length

/-- Whether an outcome is caught and retried (either retryable class). -/
def retryable : Outcome → Bool
  | .rateLimit _ => true
  | .apiError _ => true
  | _ => false

/-- `max_retries = 3` in `call_gpt4o`. -/
def max_retries : Nat := 3

/-- `delay = 10` in `call_gpt4o`. -/
def base_delay : Nat := 10

/-- The `for attempt in range(max_retries)` loop of `call_gpt4o`, with the
external call abstracted to an attempt-indexed outcome oracle. -/
def callLoop (oracle : Nat → Outcome) :
    Nat → Nat → RunState → GenResult × RunState
  | 0, _, st => (.exhausted, st)
  | fuel + 1, attempt, st =>
    match oracle attempt with
    | .success t => (.ok t, st)
    | .other => (.fatal, st)
    | .rateLimit e =>
        callLoop oracle fuel (attempt + 1) (procFail st (.rateLimit e))
    | .apiError e =>
        callLoop oracle fuel (attempt + 1) (procFail st (.apiError e))

/-- `call_gpt4o(messages)`: the final `RunState.msgs` is the message list
the caller's `messages` object holds after the call (truncation mutates
it in place). -/
def call_gpt4o (oracle : Nat → Outcome) (messages : List Message) :
    GenResult × RunState :=
  callLoop oracle max_retries 0 ⟨messages, base_delay, []⟩

/-- The metric names configured in `compute_quality`:
`metrics = [faithfulness, answer_relevancy]`. -/
def metric_names : List String := ["faithfulness", "answer_relevancy"]

/-- `compute_quality(question, answer, contexts)` with the external ragas
scorer abstracted to a function giving each named metric's value. -/
def compute_quality (score : String → String → List String → String → Rat)
    (question answer : String) (contexts : List String) :
    Rat × List (String × Rat) :=
  let scores := metric_names.map (fun n => (n, score question answer contexts n))
  (((scores.map Prod.snd).sum) / (scores.length : Rat), scores)

/-- Run-level failures of `run_loo`: the `ValueError` for zero sources,
the `RuntimeError` after exhausted generation retries, and a propagated
non-retryable generation exception. -/
inductive RunError where
  | noSources
  | genFailed
  | genFatal
deriving DecidableEq

/-- The leave-one-out subset `sources[:i] + sources[i+1:]`. -/
def subsetAt (sources : List Source) (i : Nat) : List Source :=
  sources.take i ++ sources.drop (i + 1)

/-- The ablation loop of `run_loo` over the list of indices, producing
the impact list; generation call number `i + 1` serves subset `i`. -/
def loo_loop (gen : Nat → Nat → Outcome)
    (score : String → String → List String → String → Rat)
    (query : String) (sources : List Source) (full_quality : Rat) :
    List Nat → Except RunError (List Rat)
  | [] => .ok []
  | i :: rest =>
    let subset := subsetAt sources i
    let msg_lo := build_prompt query subset
    match call_gpt4o (gen (i + 1)) msg_lo with
    | (.ok ans_lo, _) =>
      let contexts_lo := subset.map (fun t => t.text)
      let quality_lo := (compute_quality score query ans_lo contexts_lo).1
      match loo_loop gen score query sources full_quality rest with
      | .ok tail => .ok ((full_quality - quality_lo) :: tail)
      | .error e => .error e
    | (.exhausted, _) => .error .genFailed
    | (.fatal, _) => .error .genFatal

/-- `run_loo(query, urls, exa_mocks)` with the loaded cache, the content
provider, a per-call generation oracle (`gen c` drives the `c`-th
`call_gpt4o` invocation: call `0` is the full answer, call `i + 1` the
`i`-th ablation) and the scorer passed explicitly. -/
def run_loo (provider : String → Option (List ExaResult))
    (cache0 : List (String × RawDoc)) (gen : Nat → Nat → Outcome)
    (score : String → String → List String → String → Rat)
    (query : String) (urls : List String)
    (exa_mocks : Option (List (String × MockVal))) :
    Except RunError LOOResult :=
  let sources := (build_sources provider cache0 urls exa_mocks).1
  if sources.isEmpty then .error .noSources
  else
    let full_messages := build_prompt query sources
    match call_gpt4o (gen 0) full_messages with
    | (.exhausted, _) => .error .genFailed
    | (.fatal, _) => .error .genFatal
    | (.ok full_answer, _) =>
      let contexts_full := sources.map (fun s => s.text)
      let q := compute_quality score query full_answer contexts_full
      let per_source_metrics : List (List (String × Rat)) := []
      match loo_loop gen score query sources q.1 (List.range sources.length) with
      | .error e => .error e
      | .ok impacts =>
        .ok { full_answer := full_answer
              full_quality := q.1
              metric_breakdown := q.2
              per_source_impact := impacts
              sources_meta := sources.map (fun s => ⟨s.id, s.title, s.url⟩)
              per_source_metrics := per_source_metrics }

/-! Concrete instantiation of the spec's three-document scenario: documents
D1, D2, D3 supplied through `exa_mocks`, a generator that always succeeds,
and a scorer giving both metrics 0.90 on the full context and 0.60, 0.85,
0.95 on the three leave-one-out contexts. -/

/-- Three override entries supplying D1, D2, D3 directly by field. -/
def scenarioMocks : Option (List (String × MockVal)) :=
  some [("u1", ⟨none, ⟨some "D1", some "Doc One", some "u1", some "t1"⟩⟩),
        ("u2", ⟨none, ⟨some "D2", some "Doc Two", some "u2", some "t2"⟩⟩),
        ("u3", ⟨none, ⟨some "D3", some "Doc Three", some "u3", some "t3"⟩⟩)]

/-- The three URLs of the scenario. -/
def scenarioUrls : List String := ["u1", "u2", "u3"]

/-- A provider that always fails: the scenario resolves purely from overrides. -/
def scenarioProvider : String → Option (List ExaResult) := fun _ => none

/-- A generator oracle that succeeds immediately on every call. -/
def scenarioGen : Nat → Nat → Outcome := fun _ _ => .success "ans"

/-- The scenario scorer, keyed on the context list actually passed:
full context scores 0.90, each two-document subset 0.60 / 0.85 / 0.95. -/
def scenarioScore : String → String → List String → String → Rat :=
  fun _ _ ctxs _ =>
    if ctxs = ["t1", "t2", "t3"] then 0.9
    else if ctxs = ["t2", "t3"] then 0.6
    else if ctxs = ["t1", "t3"] then 0.85
    else if ctxs = ["t1", "t2"] then 0.95
    else 0

/-- The report produced by `run_loo` on the scenario. -/
def scenarioResult : LOOResult :=
  { full_answer := "ans"
    full_quality := 0.9
    metric_breakdown := [("faithfulness", 0.9), ("answer_relevancy", 0.9)]
    per_source_impact := [0.30, 0.05, -0.05]
    sources_meta := [⟨"D1", "Doc One", "u1"⟩, ⟨"D2", "Doc Two", "u2"⟩,
                     ⟨"D3", "Doc Three", "u3"⟩]
    per_source_metrics := [] }

/-! Helper lemmas about the retry loop of `call_gpt4o`. -/

/-- Peeling the first outcome off a mapped range of processed failures. -/
lemma runFails_range_succ (st : RunState) (f : Nat → Outcome) (i : Nat) :
    runFails st ((List.range (i + 1)).map f) =
      runFails (procFail st (f 0)) ((List.range i).map (fun j => f (j + 1))) := by
  simp only [runFails, List.range_succ_eq_map, List.map_cons, List.map_map,
    List.foldl_cons]
  exact congrArg _ (List.map_congr_left (fun j _ => rfl))

/-- After `i` retryable failures the loop is at attempt `attempt + i` with
`fuel - i` attempts left, in the state obtained by processing those
failures in order. -/
lemma callLoop_peel (oracle : Nat → Outcome) :
    ∀ (i fuel attempt : Nat) (st : RunState),
      (∀ j, j < i → retryable (oracle (attempt + j)) = true) → i ≤ fuel →
      callLoop oracle fuel attempt st =
        callLoop oracle (fuel - i) (attempt + i)
          (runFails st ((List.range i).map (fun j => oracle (attempt + j)))) := by
  intro i
  induction i with
  | zero => intro fuel attempt st _ _; simp [runFails]
  | succ i ih =>
    intro fuel attempt st h hle
    obtain ⟨f, rfl⟩ : ∃ f, fuel = f + 1 := ⟨fuel - 1, by omega⟩
    have h0 : retryable (oracle attempt) = true := by
      have := h 0 (by omega); simpa using this
    have hnext : ∀ j, j < i → retryable (oracle (attempt + 1 + j)) = true := by
      intro j hj
      have := h (j + 1) (by omega)
      rwa [show attempt + (j + 1) = attempt + 1 + j from by omega] at this
    have hmap : (List.range i).map (fun j => oracle (attempt + (j + 1))) =
        (List.range i).map (fun j => oracle (attempt + 1 + j)) :=
      List.map_congr_left (fun j _ => by
        rw [show attempt + (j + 1) = attempt + 1 + j from by omega])
    have hsub : f + 1 - (i + 1) = f - i := by omega
    have hatt : attempt + (i + 1) = attempt + 1 + i := by omega
    cases ho : oracle attempt with
    | success t => rw [ho] at h0; simp [retryable] at h0
    | other => rw [ho] at h0; simp [retryable] at h0
    | rateLimit e =>
        have step : callLoop oracle (f + 1) attempt st =
            callLoop oracle f (attempt + 1) (procFail st (.rateLimit e)) := by
          simp [callLoop, ho]
        rw [step, ih f (attempt + 1) (procFail st (.rateLimit e)) hnext (by omega),
          hsub, hatt, runFails_range_succ st (fun j => oracle (attempt + j)) i]
        simp only [Nat.add_zero, ho, hmap]
    | apiError e =>
        have step : callLoop oracle (f + 1) attempt st =
            callLoop oracle f (attempt + 1) (procFail st (.apiError e)) := by
          simp [callLoop, ho]
        rw [step, ih f (attempt + 1) (procFail st (.apiError e)) hnext (by omega),
          hsub, hatt, runFails_range_succ st (fun j => oracle (attempt + j)) i]
        simp only [Nat.add_zero, ho, hmap]

/-- Processing a list of failed attempts multiplies the delay by two per
backoff retry and appends exactly the doubling sleeps. -/
lemma runFails_delay_sleeps :
    ∀ (l : List Outcome) (st : RunState),
      (runFails st l).delay = st.delay * 2 ^ countBackoff l ∧
      (runFails st l).sleeps =
        st.sleeps ++ (List.range (countBackoff l)).map (fun k => st.delay * 2 ^ k) := by
  intro l
  induction l with
  | nil => intro st; simp [runFails, countBackoff]
  | cons o l ih =>
    intro st
    have hfold : runFails st (o :: l) = runFails (procFail st o) l := rfl
    obtain ⟨ihd, ihs⟩ := ih (procFail st o)
    by_cases hb : isBackoff o = true
    · have hd : (procFail st o).delay = st.delay * 2 ∧
          (procFail st o).sleeps = st.sleeps ++ [st.delay] := by
        cases o with
        | rateLimit e =>
            have : tooLargeMsg e = false := by simpa [isBackoff] using hb
            simp [procFail, this]
        | apiError e => simp [procFail]
        | success t => simp [isBackoff] at hb
        | other => simp [isBackoff] at hb
      have hc : countBackoff (o :: l) = countBackoff l + 1 := by
        simp [countBackoff, List.filter_cons, hb]
      constructor
      · rw [hfold, ihd, hd.1, hc]; ring
      · rw [hfold, ihs, hd.2, hd.1, hc, List.range_succ_eq_map]
        simp only [List.map_cons, List.map_map, List.append_assoc,
          List.singleton_append, pow_zero, mul_one]
        exact congrArg _ (congrArg _ (List.map_congr_left (fun k _ => by
          simp only [Function.comp_apply]; ring_nf; rw [pow_succ]; ring)))
    · have hd : (procFail st o).delay = st.delay ∧
          (procFail st o).sleeps = st.sleeps := by
        cases o with
        | rateLimit e =>
            have : tooLargeMsg e = true := by simpa [isBackoff] using hb
            simp [procFail, this]
        | apiError e => simp [isBackoff] at hb
        | success t => simp [procFail]
        | other => simp [procFail]
      have hc : countBackoff (o :: l) = countBackoff l := by
        simp [countBackoff, List.filter_cons, hb]
      exact ⟨by rw [hfold, ihd, hd.1, hc], by rw [hfold, ihs, hd.2, hd.1, hc]⟩

/-- Specialisation of `callLoop_peel` to the top-level call. -/
lemma call_gpt4o_stops (oracle : Nat → Outcome) (messages : List Message)
    (i : Nat) (hpre : ∀ j, j < i → retryable (oracle j) = true)
    (hi : i ≤ max_retries) :
    callLoop oracle max_retries 0 ⟨messages, base_delay, []⟩ =
      callLoop oracle (max_retries - i) i
        (runFails ⟨messages, base_delay, []⟩ ((List.range i).map oracle)) := by
  have h := callLoop_peel oracle i max_retries 0 ⟨messages, base_delay, []⟩
    (by simpa using hpre) hi
  simpa using h

/-- C7: `call_gpt4o` returns the text of the first successful attempt;
with three attempts (shared by backoff and truncation retries) all
failing retryably it raises the terminal generation-failed error; a
non-retryable exception propagates immediately after the retryable
prefix; and the sleeps performed are exactly `10, 20, 40, …`, doubling
after every backoff retry. -/
theorem call_gpt4o_retry_policy (oracle : Nat → Outcome) (messages : List Message) :
    (∀ i t, i < max_retries → (∀ j, j < i → retryable (oracle j) = true) →
        oracle i = .success t →
        call_gpt4o oracle messages =
          (.ok t, runFails ⟨messages, base_delay, []⟩ ((List.range i).map oracle))) ∧
    ((∀ i, i < max_retries → retryable (oracle i) = true) →
        call_gpt4o oracle messages =
          (.exhausted, runFails ⟨messages, base_delay, []⟩
            ((List.range max_retries).map oracle))) ∧
    (∀ i, i < max_retries → (∀ j, j < i → retryable (oracle j) = true) →
        oracle i = .other →
        call_gpt4o oracle messages =
          (.fatal, runFails ⟨messages, base_delay, []⟩ ((List.range i).map oracle))) ∧
    (∀ l : List Outcome,
        (runFails ⟨messages, base_delay, []⟩ l).sleeps =
          (List.range (countBackoff l)).map (fun k => base_delay * 2 ^ k)) := by
  refine ⟨?_, ?_, ?_, ?_⟩
  · intro i t hi hpre ht
    unfold call_gpt4o
    rw [call_gpt4o_stops oracle messages i hpre (by omega)]
    obtain ⟨k, hk⟩ : ∃ k, max_retries - i = k + 1 := ⟨max_retries - i - 1, by omega⟩
    rw [hk]
    simp [callLoop, ht]
  · intro h
    unfold call_gpt4o
    rw [call_gpt4o_stops oracle messages max_retries
      (fun j hj => h j hj) (le_refl _)]
    simp [callLoop]
  · intro i hi hpre ht
    unfold call_gpt4o
    rw [call_gpt4o_stops oracle messages i hpre (by omega)]
    obtain ⟨k, hk⟩ : ∃ k, max_retries - i = k + 1 := ⟨max_retries - i - 1, by omega⟩
    rw [hk]
    simp [callLoop, ht]
  · intro l
    have h := (runFails_delay_sleeps l ⟨messages, base_delay, []⟩).2
    simpa using h

/-- Witness for C7: one `APIError` backoff (sleeping 10 and doubling the
delay), then a success whose text is returned. -/
theorem call_gpt4o_retry_policy_witness :
    call_gpt4o (fun i => if i == 0 then .apiError "boom" else .success "answer")
        [⟨"user", "q"⟩] =
      (.ok "answer", ⟨[⟨"user", "q"⟩], 20, [10]⟩) := by
  have h := (call_gpt4o_retry_policy
      (fun i => if i == 0 then .apiError "boom" else .success "answer")
      [⟨"user", "q"⟩]).1 1 "answer" (by decide)
    (fun j hj => by
      have hj0 : j = 0 := by omega
      subst hj0
      decide)
    (by decide)
  rw [h]
  decide

/-- C6: on the oversized-request path `call_gpt4o` halves the user
content of the very message list the caller passed in, so after the
call returns the caller's prompt object is changed — contradicting the
spec's requirement that the truncation never leak back to the caller. -/
theorem call_gpt4o_truncation_leaks_to_caller :
    (call_gpt4o
        (fun i => if i == 0 then .rateLimit "Request too large" else .success "ok")
        [⟨"system", "s"⟩, ⟨"user", "ab"⟩]).1 = .ok "ok" ∧
    (call_gpt4o
        (fun i => if i == 0 then .rateLimit "Request too large" else .success "ok")
        [⟨"system", "s"⟩, ⟨"user", "ab"⟩]).2.msgs =
      [⟨"system", "s"⟩, ⟨"user", "a"⟩] ∧
    (call_gpt4o
        (fun i => if i == 0 then .rateLimit "Request too large" else .success "ok")
        [⟨"system", "s"⟩, ⟨"user", "ab"⟩]).2.msgs ≠
      [⟨"system", "s"⟩, ⟨"user", "ab"⟩] := by
  decide

/-- C9: the combined quality is the arithmetic mean of the values in the
returned breakdown, and the breakdown's key list is exactly the two
configured metrics on every call. -/
theorem compute_quality_mean_and_metrics
    (score : String → String → List String → String → Rat)
    (question answer : String) (contexts : List String) :
    ((compute_quality score question answer contexts).2).map Prod.fst =
      ["faithfulness", "answer_relevancy"] ∧
    (compute_quality score question answer contexts).1 =
      (((compute_quality score question answer contexts).2).map Prod.snd).sum /
        ((((compute_quality score question answer contexts).2).map Prod.snd).length : Rat) := by
  constructor
  · simp [compute_quality, metric_names]
  · simp [compute_quality, metric_names]

/-- C3: an override entry for a URL wins over both a cache hit and the
provider: the produced document is built from the (unwrapped) override
fields, the cache is untouched, the result does not depend on the
provider, a cache hit is used only when no override exists, the provider
is consulted only when neither exists, and a non-empty `results` list in
the override is unwrapped to its first element. -/
theorem build_sources_override_precedence
    (provider provider2 : String → Option (List ExaResult))
    (exa_mocks : Option (List (String × MockVal)))
    (cache : List (String × RawDoc)) (u : String) (rest : List String)
    (upd : Bool) :
    (∀ m, mockFor exa_mocks u = some m →
        resolve_one provider exa_mocks cache u =
          (some (sourceOfRaw u (unwrapMock m)), cache, false)) ∧
    (∀ m, mockFor exa_mocks u = some m →
        resolve_one provider exa_mocks cache u =
          resolve_one provider2 exa_mocks cache u) ∧
    (∀ m, mockFor exa_mocks u = some m →
        build_sources_go provider exa_mocks (u :: rest) cache upd =
          (sourceOfRaw u (unwrapMock m) ::
              (build_sources_go provider exa_mocks rest cache upd).1,
            (build_sources_go provider exa_mocks rest cache upd).2)) ∧
    (∀ entry, mockFor exa_mocks u = none → alookup cache u = some entry →
        resolve_one provider exa_mocks cache u =
          (some (sourceOfRaw u entry), cache, false)) ∧
    (mockFor exa_mocks u = none → alookup cache u = none →
        resolve_one provider exa_mocks cache u =
          (match fetch_exa_content provider u with
           | some src => (some src, ainsert cache u (rawOfSource src), true)
           | none => (none, cache, false))) ∧
    (∀ (m : MockVal) (r : RawDoc) (rs : List RawDoc),
        m.results = some (r :: rs) → unwrapMock m = r) := by
  refine ⟨?_, ?_, ?_, ?_, ?_, ?_⟩
  · intro m hm; simp [resolve_one, hm]
  · intro m hm; simp [resolve_one, hm]
  · intro m hm; simp [build_sources_go, resolve_one, hm]
  · intro entry hm hc; simp [resolve_one, hm, hc]
  · intro hm hc; simp [resolve_one, hm, hc]
  · intro m r rs hr; simp [unwrapMock, hr]

/-- Witness for C3: a URL present in both the cache and the overrides
resolves to the override's first envelope result, not the cache entry,
and the cache is returned unchanged. -/
theorem build_sources_override_precedence_witness :
    resolve_one (fun _ => some [⟨"PID", some "PT", "u", some "pt"⟩])
        (some [("u", ⟨some [⟨some "MID", some "MT", some "u", some "mock text"⟩],
          ⟨none, none, none, none⟩⟩)])
        [("u", ⟨some "CID", some "CT", some "u", some "cache text"⟩)] "u" =
      (some ⟨"MID", "MT", "u", "mock text"⟩,
        [("u", ⟨some "CID", some "CT", some "u", some "cache text"⟩)], false) := by
  have h := (build_sources_override_precedence
      (fun _ => some [⟨"PID", some "PT", "u", some "pt"⟩])
      (fun _ => none)
      (some [("u", ⟨some [⟨some "MID", some "MT", some "u", some "mock text"⟩],
        ⟨none, none, none, none⟩⟩)])
      [("u", ⟨some "CID", some "CT", some "u", some "cache text"⟩)] "u" [] false).1
    ⟨some [⟨some "MID", some "MT", some "u", some "mock text"⟩],
      ⟨none, none, none, none⟩⟩ (by decide)
  exact h.trans (by decide)

/-- The documents produced by the resolution loop pair up with an
order-preserving subsequence of the input URLs. -/
lemma build_sources_go_pairs (provider : String → Option (List ExaResult))
    (exa_mocks : Option (List (String × MockVal))) :
    ∀ (urls : List String) (cache : List (String × RawDoc)) (upd : Bool),
      ∃ pairs : List (String × Source),
        List.Sublist (pairs.map Prod.fst) urls ∧
        (build_sources_go provider exa_mocks urls cache upd).1 =
          pairs.map Prod.snd := by
  intro urls
  induction urls with
  | nil => intro cache upd; exact ⟨[], by simp, by simp [build_sources_go]⟩
  | cons u rest ih =>
    intro cache upd
    cases hres : resolve_one provider exa_mocks cache u with
    | mk os cb =>
      cases cb with
      | mk c b =>
        cases os with
        | none =>
            obtain ⟨pairs, hsub, heq⟩ := ih c (upd || b)
            exact ⟨pairs, List.Sublist.cons u hsub,
              by simp [build_sources_go, hres, heq]⟩
        | some s =>
            obtain ⟨pairs, hsub, heq⟩ := ih c (upd || b)
            exact ⟨(u, s) :: pairs, List.Sublist.cons₂ u hsub,
              by simp [build_sources_go, hres, heq]⟩

/-- C4: a per-URL provider failure (a raised call or an empty result
list) skips that URL and continues with the rest, so the documents are
an order-preserving subsequence of the input URL order and can be fewer
than the URLs. -/
theorem build_sources_skip_failed_urls
    (provider : String → Option (List ExaResult))
    (exa_mocks : Option (List (String × MockVal)))
    (cache0 cache : List (String × RawDoc)) (urls rest : List String)
    (u : String) (upd : Bool) :
    (mockFor exa_mocks u = none → alookup cache u = none →
      (provider u = none ∨ provider u = some []) →
      build_sources_go provider exa_mocks (u :: rest) cache upd =
        build_sources_go provider exa_mocks rest cache upd) ∧
    (∃ pairs : List (String × Source),
      List.Sublist (pairs.map Prod.fst) urls ∧
      (build_sources provider cache0 urls exa_mocks).1 = pairs.map Prod.snd) ∧
    (build_sources provider cache0 urls exa_mocks).1.length ≤ urls.length := by
  refine ⟨?_, ?_, ?_⟩
  · intro hm hc hp
    have hf : fetch_exa_content provider u = none := by
      rcases hp with h | h <;> simp [fetch_exa_content, h]
    simp [build_sources_go, resolve_one, hm, hc, hf]
  · exact build_sources_go_pairs provider exa_mocks urls cache0 false
  · obtain ⟨pairs, hsub, heq⟩ :=
      build_sources_go_pairs provider exa_mocks urls cache0 false
    calc (build_sources provider cache0 urls exa_mocks).1.length
        = pairs.length := by
          rw [show (build_sources provider cache0 urls exa_mocks).1 =
            pairs.map Prod.snd from heq]; simp
      _ = (pairs.map Prod.fst).length := by simp
      _ ≤ urls.length := hsub.length_le

/-- Witness for C4: a URL the provider cannot resolve is skipped and the
remaining URL still resolves. -/
theorem build_sources_skip_failed_urls_witness :
    build_sources_go scenarioProvider scenarioMocks ["u4", "u1"] [] false =
      build_sources_go scenarioProvider scenarioMocks ["u1"] [] false ∧
    (build_sources scenarioProvider [] ["u4", "u1"] scenarioMocks).1 =
      [⟨"D1", "Doc One", "u1", "t1"⟩] := by
  have h := (build_sources_skip_failed_urls scenarioProvider scenarioMocks
      [] [] ["u4", "u1"] ["u1"] "u4" false).1 (by decide) (by decide) (Or.inl rfl)
  exact ⟨h, by decide⟩

/-! Helper lemmas about `run_loo` and its ablation loop. -/

/-- Evaluating `run_loo` on the spec's concrete three-document scenario. -/
lemma scenario_run_eval :
    run_loo scenarioProvider [] scenarioGen scenarioScore "q" scenarioUrls
      scenarioMocks = .ok scenarioResult := by
  simp +decide [run_loo, build_sources, build_sources_go, resolve_one, mockFor,
    scenarioMocks, scenarioProvider, scenarioGen, scenarioScore, scenarioUrls,
    sourceOfRaw, unwrapMock, alookup, build_prompt, call_gpt4o, callLoop,
    max_retries, compute_quality, metric_names, loo_loop, subsetAt, base_delay,
    scenarioResult]
  norm_num

/-- A successful ablation loop returns one impact per index, each equal to
the full quality minus the quality of the answer generated and scored on
that index's leave-one-out subset. -/
lemma loo_loop_ok_spec (gen : Nat → Nat → Outcome)
    (score : String → String → List String → String → Rat)
    (query : String) (sources : List Source) (fq : Rat) :
    ∀ (l : List Nat) (imps : List Rat),
      loo_loop gen score query sources fq l = .ok imps →
      imps.length = l.length ∧
      ∀ (k i : Nat), l[k]? = some i →
        ∃ ans st,
          call_gpt4o (gen (i + 1)) (build_prompt query (subsetAt sources i)) =
            (.ok ans, st) ∧
          imps[k]? = some (fq -
            (compute_quality score query ans
              ((subsetAt sources i).map (fun t => t.text))).1) := by
  intro l
  induction l with
  | nil =>
      intro imps h
      have himps : imps = [] := by
        simpa [loo_loop] using h.symm
      subst himps
      exact ⟨rfl, by intro k i hk; simp at hk⟩
  | cons i0 rest ih =>
      intro imps h
      simp only [loo_loop] at h
      rcases hc : call_gpt4o (gen (i0 + 1)) (build_prompt query (subsetAt sources i0))
        with ⟨g, st⟩
      rw [hc] at h
      cases g with
      | exhausted => simp at h
      | fatal => simp at h
      | ok ans =>
          cases hr : loo_loop gen score query sources fq rest with
          | error e => rw [hr] at h; simp at h
          | ok tail =>
              rw [hr] at h
              simp only [Except.ok.injEq] at h
              obtain ⟨hlen, hidx⟩ := ih tail hr
              subst h
              constructor
              · simp [hlen]
              · intro k i hk
                cases k with
                | zero =>
                    rw [List.getElem?_cons_zero] at hk
                    have hi : i0 = i := by simpa using hk
                    subst hi
                    refine ⟨ans, st, hc, ?_⟩
                    rw [List.getElem?_cons_zero]
                | succ k =>
                    rw [List.getElem?_cons_succ] at hk
                    obtain ⟨a, s, hca, hia⟩ := hidx k i hk
                    refine ⟨a, s, hca, ?_⟩
                    rw [List.getElem?_cons_succ]
                    exact hia

/-- The ablation loop never raises the zero-sources validation error. -/
lemma loo_loop_ne_noSources (gen : Nat → Nat → Outcome)
    (score : String → String → List String → String → Rat)
    (query : String) (sources : List Source) (fq : Rat) :
    ∀ l, loo_loop gen score query sources fq l ≠ .error .noSources := by
  intro l
  induction l with
  | nil => simp [loo_loop]
  | cons i rest ih =>
      intro h
      simp only [loo_loop] at h
      rcases hc : call_gpt4o (gen (i + 1)) (build_prompt query (subsetAt sources i))
        with ⟨g, st⟩
      rw [hc] at h
      cases g with
      | exhausted => simp at h
      | fatal => simp at h
      | ok ans =>
          cases hr : loo_loop gen score query sources fq rest with
          | error e =>
              rw [hr] at h
              simp only [Except.error.injEq] at h
              exact ih (by rw [hr, h])
          | ok tail => rw [hr] at h; simp at h

/-- Inversion of a successful `run_loo`: the report's fields are produced
from the resolved sources, the full-run generation and scoring, and the
ablation loop over all indices. -/
lemma run_loo_ok_inv (provider : String → Option (List ExaResult))
    (cache0 : List (String × RawDoc)) (gen : Nat → Nat → Outcome)
    (score : String → String → List String → String → Rat)
    (query : String) (urls : List String)
    (exa_mocks : Option (List (String × MockVal))) (res : LOOResult)
    (h : run_loo provider cache0 gen score query urls exa_mocks = .ok res) :
    ∃ full_answer st0 impacts,
      call_gpt4o (gen 0)
        (build_prompt query (build_sources provider cache0 urls exa_mocks).1) =
        (.ok full_answer, st0) ∧
      loo_loop gen score query (build_sources provider cache0 urls exa_mocks).1
        ((compute_quality score query full_answer
          ((build_sources provider cache0 urls exa_mocks).1.map (fun s => s.text))).1)
        (List.range (build_sources provider cache0 urls exa_mocks).1.length) =
        .ok impacts ∧
      res = { full_answer := full_answer
              full_quality := (compute_quality score query full_answer
                ((build_sources provider cache0 urls exa_mocks).1.map
                  (fun s => s.text))).1
              metric_breakdown := (compute_quality score query full_answer
                ((build_sources provider cache0 urls exa_mocks).1.map
                  (fun s => s.text))).2
              per_source_impact := impacts
              sources_meta := (build_sources provider cache0 urls exa_mocks).1.map
                (fun s => (⟨s.id, s.title, s.url⟩ : SMeta))
              per_source_metrics := [] } := by
  simp only [run_loo] at h
  split at h
  · simp at h
  · split at h
    · simp at h
    · simp at h
    · rename_i fa st0 heq
      split at h
      · simp at h
      · rename_i impacts heq2
        simp only [Except.ok.injEq] at h
        exact ⟨fa, st0, impacts, heq, heq2, h.symm⟩

/-- C1: in every successful run, the `i`-th reported impact equals the
full-run combined quality minus the combined quality of the answer
generated and evaluated on the subset omitting the `i`-th document; on
the spec's concrete scenario (full quality 0.90, subset qualities 0.60,
0.85, 0.95) the impacts are `[0.30, 0.05, -0.05]` for D1, D2, D3 in
order. -/
theorem run_loo_impact_full_minus_subset :
    (∀ (provider : String → Option (List ExaResult))
        (cache0 : List (String × RawDoc)) (gen : Nat → Nat → Outcome)
        (score : String → String → List String → String → Rat)
        (query : String) (urls : List String)
        (exa_mocks : Option (List (String × MockVal))) (res : LOOResult),
      run_loo provider cache0 gen score query urls exa_mocks = .ok res →
      (∃ full_answer st0,
        call_gpt4o (gen 0)
          (build_prompt query (build_sources provider cache0 urls exa_mocks).1) =
          (.ok full_answer, st0) ∧
        res.full_quality = (compute_quality score query full_answer
          ((build_sources provider cache0 urls exa_mocks).1.map
            (fun s => s.text))).1) ∧
      (∀ i, i < (build_sources provider cache0 urls exa_mocks).1.length →
        ∃ ans st,
          call_gpt4o (gen (i + 1))
            (build_prompt query
              (subsetAt (build_sources provider cache0 urls exa_mocks).1 i)) =
            (.ok ans, st) ∧
          res.per_source_impact[i]? = some (res.full_quality -
            (compute_quality score query ans
              ((subsetAt (build_sources provider cache0 urls exa_mocks).1 i).map
                (fun t => t.text))).1))) ∧
    run_loo scenarioProvider [] scenarioGen scenarioScore "q" scenarioUrls
      scenarioMocks = .ok scenarioResult ∧
    scenarioResult.per_source_impact = [0.30, 0.05, -0.05] ∧
    scenarioResult.sources_meta =
      [⟨"D1", "Doc One", "u1"⟩, ⟨"D2", "Doc Two", "u2"⟩,
       ⟨"D3", "Doc Three", "u3"⟩] := by
  refine ⟨?_, scenario_run_eval, rfl, rfl⟩
  intro provider cache0 gen score query urls exa_mocks res h
  obtain ⟨fa, st0, impacts, hc, hl, hres⟩ :=
    run_loo_ok_inv provider cache0 gen score query urls exa_mocks res h
  obtain ⟨hlen, hidx⟩ := loo_loop_ok_spec gen score query
    (build_sources provider cache0 urls exa_mocks).1 _ _ impacts hl
  constructor
  · exact ⟨fa, st0, hc, by rw [hres]⟩
  · intro i hi
    obtain ⟨ans, st, hca, hia⟩ := hidx i i (by rw [List.getElem?_range hi])
    refine ⟨ans, st, hca, ?_⟩
    rw [hres]
    exact hia

/-- Witness for C1: the first ablation of the concrete scenario satisfies
the impact equation. -/
theorem run_loo_impact_full_minus_subset_witness :
    ∃ ans st,
      call_gpt4o (scenarioGen 1)
        (build_prompt "q"
          (subsetAt (build_sources scenarioProvider [] scenarioUrls scenarioMocks).1 0)) =
        (.ok ans, st) ∧
      scenarioResult.per_source_impact[0]? = some (scenarioResult.full_quality -
        (compute_quality scenarioScore "q" ans
          ((subsetAt (build_sources scenarioProvider [] scenarioUrls scenarioMocks).1 0).map
            (fun t => t.text))).1) :=
  ((run_loo_impact_full_minus_subset.1 scenarioProvider [] scenarioGen
      scenarioScore "q" scenarioUrls scenarioMocks scenarioResult
      run_loo_impact_full_minus_subset.2.1).2 0 (by decide))

/-- C2: every successful run has one impact per resolved document and one
metadata entry per resolved document; `sources_meta[i]` is the id, title
and url of the document excluded for `impact[i]` (the subset at `i` is
the source list with index `i` erased), and the document order is an
order-preserving subsequence of the supplied URL order. -/
theorem run_loo_index_alignment (provider : String → Option (List ExaResult))
    (cache0 : List (String × RawDoc)) (gen : Nat → Nat → Outcome)
    (score : String → String → List String → String → Rat)
    (query : String) (urls : List String)
    (exa_mocks : Option (List (String × MockVal))) (res : LOOResult)
    (h : run_loo provider cache0 gen score query urls exa_mocks = .ok res) :
    res.per_source_impact.length =
      (build_sources provider cache0 urls exa_mocks).1.length ∧
    res.sources_meta.length =
      (build_sources provider cache0 urls exa_mocks).1.length ∧
    res.sources_meta = ((build_sources provider cache0 urls exa_mocks).1).map
      (fun s => (⟨s.id, s.title, s.url⟩ : SMeta)) ∧
    (∀ i, i < (build_sources provider cache0 urls exa_mocks).1.length →
      subsetAt (build_sources provider cache0 urls exa_mocks).1 i =
        ((build_sources provider cache0 urls exa_mocks).1).eraseIdx i) ∧
    (∃ pairs : List (String × Source),
      List.Sublist (pairs.map Prod.fst) urls ∧
      (build_sources provider cache0 urls exa_mocks).1 = pairs.map Prod.snd) := by
  obtain ⟨fa, st0, impacts, hc, hl, hres⟩ :=
    run_loo_ok_inv provider cache0 gen score query urls exa_mocks res h
  obtain ⟨hlen, _⟩ := loo_loop_ok_spec gen score query
    (build_sources provider cache0 urls exa_mocks).1 _ _ impacts hl
  refine ⟨?_, ?_, ?_, ?_, ?_⟩
  · rw [hres]; simpa using hlen
  · rw [hres]; simp
  · rw [hres]
  · intro i _
    rw [subsetAt, List.eraseIdx_eq_take_drop_succ]
  · exact build_sources_go_pairs provider exa_mocks urls cache0 false

/-- Witness for C2: alignment on the concrete scenario, whose three
documents give three impacts and three metadata entries. -/
theorem run_loo_index_alignment_witness :
    scenarioResult.per_source_impact.length =
      (build_sources scenarioProvider [] scenarioUrls scenarioMocks).1.length ∧
    scenarioResult.sources_meta =
      ((build_sources scenarioProvider [] scenarioUrls scenarioMocks).1).map
        (fun s => (⟨s.id, s.title, s.url⟩ : SMeta)) ∧
    scenarioResult.per_source_impact.length = 3 := by
  have h := run_loo_index_alignment scenarioProvider [] scenarioGen
    scenarioScore "q" scenarioUrls scenarioMocks scenarioResult scenario_run_eval
  exact ⟨h.1, h.2.2.1, h.1.trans (by decide)⟩

/-- C5: `run_loo` raises the zero-documents validation error exactly when
no URL resolves, and in that case the outcome is the same for every
generator and scorer — no generation or evaluation influences it. -/
theorem run_loo_no_sources_error (provider : String → Option (List ExaResult))
    (cache0 : List (String × RawDoc)) (gen : Nat → Nat → Outcome)
    (score : String → String → List String → String → Rat)
    (query : String) (urls : List String)
    (exa_mocks : Option (List (String × MockVal))) :
    (run_loo provider cache0 gen score query urls exa_mocks =
        .error .noSources ↔
      (build_sources provider cache0 urls exa_mocks).1 = []) ∧
    ((build_sources provider cache0 urls exa_mocks).1 = [] →
      ∀ (gen2 : Nat → Nat → Outcome)
        (score2 : String → String → List String → String → Rat),
        run_loo provider cache0 gen2 score2 query urls exa_mocks =
          .error .noSources) := by
  have hrun : ∀ (gen2 : Nat → Nat → Outcome)
      (score2 : String → String → List String → String → Rat),
      (build_sources provider cache0 urls exa_mocks).1 = [] →
      run_loo provider cache0 gen2 score2 query urls exa_mocks =
        .error .noSources := by
    intro gen2 score2 he
    simp [run_loo, he]
  constructor
  · constructor
    · intro h
      by_contra hne
      have he : (build_sources provider cache0 urls exa_mocks).1.isEmpty = false := by
        cases hh : (build_sources provider cache0 urls exa_mocks).1 with
        | nil => exact absurd hh hne
        | cons a l => simp
      simp only [run_loo, he, Bool.false_eq_true, if_false] at h
      split at h
      · simp at h
      · simp at h
      · rename_i fa st0 heq
        split at h
        · rename_i e heq2
          simp only [Except.error.injEq] at h
          exact loo_loop_ne_noSources gen score query _ _ _ (by rw [heq2, h])
        · simp at h
    · intro he
      exact hrun gen score he
  · intro he gen2 score2
    exact hrun gen2 score2 he

/-- Witness for C5: a run whose single URL fails to resolve aborts with
the validation error. -/
theorem run_loo_no_sources_error_witness :
    run_loo scenarioProvider [] scenarioGen scenarioScore "q" ["u4"]
      scenarioMocks = .error .noSources :=
  (run_loo_no_sources_error scenarioProvider [] scenarioGen scenarioScore
    "q" ["u4"] scenarioMocks).1.mpr (by decide)

/-- C10: the `per_source_metrics` field of every successful report is the
empty list — the per-source-in-isolation computation never runs. -/
theorem run_loo_per_source_metrics_empty
    (provider : String → Option (List ExaResult))
    (cache0 : List (String × RawDoc)) (gen : Nat → Nat → Outcome)
    (score : String → String → List String → String → Rat)
    (query : String) (urls : List String)
    (exa_mocks : Option (List (String × MockVal))) (res : LOOResult)
    (h : run_loo provider cache0 gen score query urls exa_mocks = .ok res) :
    res.per_source_metrics = [] := by
  obtain ⟨fa, st0, impacts, hc, hl, hres⟩ :=
    run_loo_ok_inv provider cache0 gen score query urls exa_mocks res h
  rw [hres]

/-- A generation call whose first attempt succeeds returns immediately
with the state untouched. -/
lemma call_gpt4o_immediate (oracle : Nat → Outcome) (messages : List Message)
    (t : String) (h : oracle 0 = .success t) :
    call_gpt4o oracle messages = (.ok t, ⟨messages, base_delay, []⟩) := by
  rw [call_gpt4o, show max_retries = 2 + 1 from rfl, callLoop, h]

/-- C8: with exactly one resolved document and a generator that answers
every call, the single ablation iteration runs on the empty subset, the
engine returns a report with exactly one impact value, and `build_prompt`
on the empty document list is still a well-formed two-message
system/user prompt. -/
theorem run_loo_single_document (provider : String → Option (List ExaResult))
    (cache0 : List (String × RawDoc))
    (score : String → String → List String → String → Rat)
    (query : String) (urls : List String)
    (exa_mocks : Option (List (String × MockVal)))
    (gen : Nat → Nat → Outcome) (answers : Nat → String)
    (hgen : ∀ c, gen c 0 = .success (answers c))
    (hlen : (build_sources provider cache0 urls exa_mocks).1.length = 1) :
    (∃ res, run_loo provider cache0 gen score query urls exa_mocks = .ok res ∧
      res.per_source_impact.length = 1) ∧
    subsetAt (build_sources provider cache0 urls exa_mocks).1 0 = [] ∧
    (build_prompt query []).map (fun m => m.role) = ["system", "user"] ∧
    (build_prompt query []).length = 2 := by
  obtain ⟨s, hsrc⟩ := List.length_eq_one.mp hlen
  refine ⟨?_, by rw [hsrc]; rfl, by simp [build_prompt], by simp [build_prompt]⟩
  refine ⟨{ full_answer := answers 0
            full_quality := (compute_quality score query (answers 0) [s.text]).1
            metric_breakdown := (compute_quality score query (answers 0) [s.text]).2
            per_source_impact := [(compute_quality score query (answers 0) [s.text]).1 -
              (compute_quality score query (answers 1) []).1]
            sources_meta := [⟨s.id, s.title, s.url⟩]
            per_source_metrics := [] }, ?_, rfl⟩
  have hloop : loo_loop gen score query [s]
      (compute_quality score query (answers 0) [s.text]).1 [0] =
      .ok [(compute_quality score query (answers 0) [s.text]).1 -
        (compute_quality score query (answers 1) []).1] := by
    simp only [loo_loop, subsetAt]
    rw [call_gpt4o_immediate (gen 1) _ _ (hgen 1)]
    rfl
  simp only [run_loo, hsrc]
  rw [call_gpt4o_immediate (gen 0) _ _ (hgen 0)]
  simp only [List.length_cons, List.length_nil, Nat.zero_add, List.range_succ,
    List.range_zero, List.nil_append, List.map_cons, List.map_nil, hloop]
  rfl

/-- Witness for C8: a scenario run restricted to the single URL `u1`
resolves one document, survives the empty-subset ablation, and reports
one impact. -/
theorem run_loo_single_document_witness :
    (∃ res, run_loo scenarioProvider [] scenarioGen scenarioScore "q" ["u1"]
        scenarioMocks = .ok res ∧ res.per_source_impact.length = 1) ∧
    subsetAt (build_sources scenarioProvider [] ["u1"] scenarioMocks).1 0 = [] ∧
    (build_prompt "q" []).map (fun m => m.role) = ["system", "user"] ∧
    (build_prompt "q" []).length = 2 :=
  run_loo_single_document scenarioProvider [] scenarioScore "q" ["u1"]
    scenarioMocks scenarioGen (fun _ => "ans") (fun _ => rfl) (by decide)

/-- Witness for C10: the scenario report's `per_source_metrics` is empty. -/
theorem run_loo_per_source_metrics_empty_witness :
    scenarioResult.per_source_metrics = [] :=
  run_loo_per_source_metrics_empty scenarioProvider [] scenarioGen
    scenarioScore "q" scenarioUrls scenarioMocks scenarioResult scenario_run_eval

end GeoEval
